import Mathlib

/-!
Verification of the add-on checkbox / cart-submission logic implemented in
`src/elements/custom-main.js` (custom elements `VariantChangeListener` and
`PatternProductForm`).  The JavaScript is embedded shallowly: DOM checkboxes
become records of their data attributes, JavaScript numbers that are only ever
produced by `parseInt` become `Option Int` (with `none` playing the role of
`NaN`), prices (produced by `parseFloat`/arithmetic) become rationals, and the
imperative submit handler becomes a pure function from the controller state,
the form fields and the fetch outcome to a record of its observable effects.
-/

namespace Frra

/-- Characters treated as leading whitespace by the JavaScript number parser. -/
def isJsWhitespace (c : Char) : Bool :=
  c = ' ' || c = '\t' || c = '\n' || c = '\r'

/-- Longest prefix of decimal digits of a character list. -/
def leadingDigits (cs : List Char) : List Char :=
  cs.takeWhile (fun c => '0' ≤ c && c ≤ '9')

/-- Numeric value of a list of decimal digits. -/
def digitsToNat (ds : List Char) : Nat :=
  ds.foldl (fun acc c => acc * 10 + (c.toNat - 48)) 0

/-- Model of JavaScript `parseInt(s, 10)`: skip leading whitespace, read an
optional sign and then the longest digit prefix; `none` models the `NaN`
result produced when no digit is found. -/
def jsParseInt (s : String) : Option Int :=
  let cs := s.data.dropWhile isJsWhitespace
  let signAndRest : Int × List Char :=
    match cs with
    | '-' :: t => (-1, t)
    | '+' :: t => (1, t)
    | t => (1, t)
  let ds := leadingDigits signAndRest.2
  if ds.isEmpty then none
  else some (signAndRest.1 * (digitsToNat ds : Int))

/-- Model of the JavaScript idiom `parseInt(...) || 1`: `NaN` (here `none`)
and `0` (falsy) both collapse to the default `1`; every other integer is kept,
including negative ones. -/
def orOne (n : Option Int) : Int :=
  match n with
  | none => 1
  | some n => if n = 0 then 1 else n

/-- Scalar JSON values, as they appear as entries of the parsed
`data-additional-product-count-for-variant` map.  Composite entry values
(arrays / nested objects) are outside the scope of this development. -/
inductive JVal where
  | jnum (n : Int)
  | jstr (s : String)
  | jbool (b : Bool)
  | jnull
deriving DecidableEq, Repr

/-- JavaScript truthiness of a scalar JSON value. -/
def jtruthy : JVal → Bool
  | .jnum n => n != 0
  | .jstr s => s != ""
  | .jbool b => b
  | .jnull => false

/-- JavaScript `String(v)` for a scalar JSON value, as it is coerced when the
value is handed to `parseInt`. -/
def jvalToString : JVal → String
  | .jnum n => toString n
  | .jstr s => s
  | .jbool b => if b then "true" else "false"
  | .jnull => "null"

/-- Outcome of `JSON.parse` applied to the quantity-map data attribute:
the parse can throw, produce a non-object scalar (whose indexing by a title
yields `undefined` and hence the default multiplier), or produce an object,
kept as its list of key/value pairs in textual order. -/
inductive ParseOutcome where
  | thrown
  | nonObject (v : JVal)
  | obj (m : List (String × JVal))
deriving DecidableEq, Repr

/-- Property lookup on a parsed JSON object.  JavaScript keeps the last of
duplicate keys, hence the lookup on the reversed association list. -/
def jsonLookup (m : List (String × JVal)) (k : String) : Option JVal :=
  m.reverse.lookup k

/-- Model of the quantity-multiplier computation that appears verbatim in
`getCheckboxPrice`, `buildPatternProductItem`, `handlePatternProductChange`
and `updatePatternProductCount`:

    let countMultiplier = 1;
    if (sizeCountData) {
      try {
        const o = JSON.parse(sizeCountData);
        if (o && currentVariantTitle && o[currentVariantTitle]) {
          countMultiplier = parseInt(o[currentVariantTitle], 10) || 1;
        }
      } catch (e) { console.warn(...); }
    }

The first argument is `none` when the data attribute is absent or empty
(falsy), otherwise the outcome of `JSON.parse` on it. -/
def countMultiplier (cd : Option ParseOutcome) (title : String) : Int :=
  match cd with
  | none => 1
  | some .thrown => 1
  | some (.nonObject _) => 1
  | some (.obj m) =>
    if title ≠ "" then
      match jsonLookup m title with
      | some v => if jtruthy v then orOne (jsParseInt (jvalToString v)) else 1
      | none => 1
    else 1

example : jsParseInt "42" = some 42 := by decide
example : jsParseInt "-3" = some (-3) := by decide
example : jsParseInt " 7x" = some 7 := by decide
example : jsParseInt "x7" = none := by decide
example : jsParseInt "-0" = some 0 := by decide
example : countMultiplier (some (.obj [("Large", .jnum 2)])) "Large" = 2 := by decide
example : countMultiplier (some (.obj [("Large", .jnum (-2))])) "Large" = -2 := by decide
example : countMultiplier (some .thrown) "Large" = 1 := by decide
example : countMultiplier none "Large" = 1 := by decide
example : countMultiplier (some (.obj [("Large", .jstr "abc")])) "Large" = 1 := by decide
example : countMultiplier (some (.obj [("Large", .jnum 0)])) "Large" = 1 := by decide
example : countMultiplier (some (.obj [("Large", .jnum 2)])) "Small" = 1 := by decide
example : countMultiplier (some (.obj [("", .jnum 2)])) "" = 1 := by decide

/-- Shallow embedding of an add-on checkbox (`#pattern_product` or one of the
`pattern_needles` inputs) together with the data attributes the controller
reads from it.  `additionalProductPrice` holds the numeric value of
`parseFloat(checkbox.dataset.additionalProductPrice || 0)`; `countData` holds
`none` when `dataset.additionalProductCountForVariant` is absent or empty and
otherwise the outcome of `JSON.parse` on it; `currentVariantTitle` holds
`dataset.currentVariantTitle || ""`.  `idAttr`/`nameAttr` are the DOM `id` and
`name` attributes used by the state accessor fallback query. -/
structure Checkbox where
  checked : Bool
  additionalProductPrice : ℚ
  countData : Option ParseOutcome
  currentVariantTitle : String
  additionalProductVariantId : Option String
  additionalProductId : Option String
  idAttr : Option String
  nameAttr : Option String
deriving DecidableEq, Repr

/-- Model of `getCheckboxPrice`: the base price times the variant-keyed
quantity multiplier. -/
def getCheckboxPrice (cb : Checkbox) : ℚ :=
  cb.additionalProductPrice * (countMultiplier cb.countData cb.currentVariantTitle : ℚ)

/-- State of the `PatternProductForm` controller that the price computation
reads: the optional pattern-product checkbox, the list of pattern-needle
checkboxes in DOM order, and `this.currentVariantPrice` as freshly re-read by
`updateCurrentVariantPrice`. -/
structure PatternFormState where
  patternProductCheckbox : Option Checkbox
  patternNeedleCheckboxes : List Checkbox
  currentVariantPrice : ℚ
deriving DecidableEq, Repr

/-- One step of the needle-price accumulation loop in
`recalculateTotalPrice` / `getCalculatedTotalPrice`. -/
def priceStep (acc : ℚ) (cb : Checkbox) : ℚ :=
  if cb.checked then acc + getCheckboxPrice cb else acc

/-- Model of the `totalAdditionalPrice` accumulation shared by
`recalculateTotalPrice` and `getCalculatedTotalPrice`: start from zero, add
the pattern-product price if that checkbox is checked, then walk the needle
checkboxes adding the price of each checked one. -/
def totalAdditionalPrice (st : PatternFormState) : ℚ :=
  let fromPattern : ℚ :=
    match st.patternProductCheckbox with
    | some cb => if cb.checked then 0 + getCheckboxPrice cb else 0
    | none => 0
  st.patternNeedleCheckboxes.foldl priceStep fromPattern

/-- Model of `getCalculatedTotalPrice`: current variant price plus the
additional price of the checked add-ons. -/
def getCalculatedTotalPrice (st : PatternFormState) : ℚ :=
  st.currentVariantPrice + totalAdditionalPrice st

/-- Model of `recalculateTotalPrice`: the total handed to
`updatePriceDisplay` together with the flag `totalAdditionalPrice > 0` that
toggles the `price--with-pattern-product` class. -/
def recalculateTotalPrice (st : PatternFormState) : ℚ × Bool :=
  (st.currentVariantPrice + totalAdditionalPrice st,
   decide (0 < totalAdditionalPrice st))

/-- The checked add-on checkboxes, pattern product first, then the checked
needles in DOM order.  Used to phrase the price total as a sum over exactly
the checked add-ons. -/
def checkedAddOns (st : PatternFormState) : List Checkbox :=
  (match st.patternProductCheckbox with
   | some cb => if cb.checked then [cb] else []
   | none => []) ++ st.patternNeedleCheckboxes.filter (fun cb => cb.checked)

theorem foldl_priceStep (ns : List Checkbox) (a : ℚ) :
    ns.foldl priceStep a
      = a + (((ns.filter (fun cb => cb.checked)).map getCheckboxPrice).sum) := by
  induction ns generalizing a with
  | nil => simp
  | cons cb t ih =>
    cases hc : cb.checked with
    | true => simp [priceStep, hc, ih, add_assoc]
    | false => simp [priceStep, hc, ih]

theorem totalAdditionalPrice_eq (st : PatternFormState) :
    totalAdditionalPrice st = ((checkedAddOns st).map getCheckboxPrice).sum := by
  unfold totalAdditionalPrice checkedAddOns
  cases hp : st.patternProductCheckbox with
  | none => simp [foldl_priceStep]
  | some cb =>
    cases hc : cb.checked with
    | true => simp [foldl_priceStep, hc]
    | false => simp [foldl_priceStep, hc]

/-- Claim C2: for every state of the checkboxes the recomputed total price is
the current variant price plus the sum, over exactly the checked add-on
checkboxes (pattern product and pattern needles), of that checkbox's base
price times its quantity multiplier; unchecking an add-on (needle or pattern
product) removes exactly its contribution; `recalculateTotalPrice` displays
the same total that `getCalculatedTotalPrice` reports; and in the concrete
scenario (variant price 5000, pattern-product base 1200, quantity map
`{"Large": 2}`, current title `"Large"`, pattern product checked) the total
is 7400. -/
theorem totalPrice_is_sum_over_checked :
    (∀ st : PatternFormState,
       getCalculatedTotalPrice st
         = st.currentVariantPrice + ((checkedAddOns st).map getCheckboxPrice).sum)
  ∧ (∀ st : PatternFormState, (recalculateTotalPrice st).1 = getCalculatedTotalPrice st)
  ∧ (∀ (st : PatternFormState) (pre post : List Checkbox) (cb : Checkbox),
       st.patternNeedleCheckboxes = pre ++ cb :: post → cb.checked = true →
       getCalculatedTotalPrice
           { st with patternNeedleCheckboxes := pre ++ { cb with checked := false } :: post }
         = getCalculatedTotalPrice st - getCheckboxPrice cb)
  ∧ (∀ (st : PatternFormState) (cb : Checkbox),
       st.patternProductCheckbox = some cb → cb.checked = true →
       getCalculatedTotalPrice
           { st with patternProductCheckbox := some { cb with checked := false } }
         = getCalculatedTotalPrice st - getCheckboxPrice cb)
  ∧ getCalculatedTotalPrice
      ⟨some ⟨true, 1200, some (.obj [("Large", .jnum 2)]), "Large", some "111", some "777",
             none, none⟩, [], 5000⟩ = 7400 := by
  refine ⟨?_, ?_, ?_, ?_, ?_⟩
  · intro st
    rw [getCalculatedTotalPrice, totalAdditionalPrice_eq]
  · intro st
    rfl
  · intro st pre post cb hn hc
    simp only [getCalculatedTotalPrice, totalAdditionalPrice_eq, checkedAddOns, hn,
      List.filter_append, List.filter_cons, hc]
    simp [List.sum_append]
    ring
  · intro st cb hp hc
    simp only [getCalculatedTotalPrice, totalAdditionalPrice_eq, checkedAddOns, hp, hc]
    simp
    ring
  · have hm : countMultiplier (some (.obj [("Large", .jnum 2)])) "Large" = 2 := by decide
    simp [getCalculatedTotalPrice, totalAdditionalPrice, getCheckboxPrice, hm, priceStep]
    norm_num

/-- Witness for claim C2: unchecking the single checked needle (base price
300, no quantity map) removes exactly its 300 contribution. -/
theorem totalPrice_is_sum_over_checked_witness :
    getCalculatedTotalPrice ⟨none, [⟨false, 300, none, "", none, none, none, none⟩], 100⟩
      = getCalculatedTotalPrice ⟨none, [⟨true, 300, none, "", none, none, none, none⟩], 100⟩
        - getCheckboxPrice ⟨true, 300, none, "", none, none, none, none⟩ :=
  totalPrice_is_sum_over_checked.2.2.1
    ⟨none, [⟨true, 300, none, "", none, none, none, none⟩], 100⟩
    [] [] ⟨true, 300, none, "", none, none, none, none⟩ rfl rfl

theorem lookup_mem {α β : Type} [BEq α] [LawfulBEq α] {l : List (α × β)} {a : α} {b : β}
    (h : l.lookup a = some b) : (a, b) ∈ l := by
  induction l with
  | nil => simp [List.lookup] at h
  | cons p t ih =>
    obtain ⟨k, v⟩ := p
    rw [List.lookup] at h
    cases hbeq : a == k with
    | true =>
      rw [hbeq] at h
      have hk : a = k := eq_of_beq hbeq
      have hv : v = b := by simpa using h
      subst hk; subst hv
      exact List.mem_cons_self _ _
    | false =>
      rw [hbeq] at h
      exact List.mem_cons_of_mem _ (ih h)

theorem mem_of_jsonLookup_eq_some {m : List (String × JVal)} {k : String} {v : JVal}
    (h : jsonLookup m k = some v) : (k, v) ∈ m := by
  have := lookup_mem h
  exact (List.mem_reverse).1 this

theorem orOne_ne_zero (x : Option Int) : orOne x ≠ 0 := by
  cases x with
  | none => simp [orOne]
  | some n =>
    by_cases h : n = 0 <;> simp [orOne, h]

theorem orOne_pos {x : Option Int} (h : ∀ n, x = some n → 0 ≤ n) : 0 < orOne x := by
  cases x with
  | none => simp [orOne]
  | some n =>
    by_cases h0 : n = 0
    · simp [orOne, h0]
    · have := h n rfl
      simp only [orOne, h0, if_false]
      omega

theorem countMultiplier_cases (cd : Option ParseOutcome) (t : String) :
    countMultiplier cd t = 1
  ∨ ∃ m v, cd = some (.obj m) ∧ jsonLookup m t = some v ∧ jtruthy v = true
      ∧ countMultiplier cd t = orOne (jsParseInt (jvalToString v)) := by
  match cd with
  | none => exact Or.inl rfl
  | some .thrown => exact Or.inl rfl
  | some (.nonObject v) => exact Or.inl rfl
  | some (.obj m) =>
    by_cases ht : t ≠ ""
    · cases hl : jsonLookup m t with
      | none =>
        left
        simp only [countMultiplier]
        rw [if_pos ht, hl]
      | some v =>
        cases hv : jtruthy v with
        | false =>
          left
          simp only [countMultiplier]
          rw [if_pos ht, hl]
          simp [hv]
        | true =>
          refine Or.inr ⟨m, v, rfl, hl, hv, ?_⟩
          simp only [countMultiplier]
          rw [if_pos ht, hl]
          simp [hv]
    · left
      simp only [countMultiplier]
      rw [if_neg ht]

/-- Claim C1 counterexample: with the quantity map parsing to the object
`{"Large": -2}` and current variant title `"Large"`, the computed multiplier
is the negative integer `-2`: `parseInt("-2", 10) || 1` keeps every nonzero
integer, so the claimed clamp of values `≤ 0` to the default `1` (and the
claimed positivity of the multiplier) fails. -/
theorem countMultiplier_negative_entry :
    countMultiplier (some (.obj [("Large", .jnum (-2))])) "Large" = -2 := by decide

/-- Claim C1 as amended: the multiplier is `1` when the quantity-map data
attribute is absent or malformed (no exception escapes the embedded
computation) and when the current title misses the parsed map; when the map
holds the title with a truthy value the multiplier is `parseInt` of that value
with only a failed parse or a zero result clamped to `1`.  The multiplier is
therefore always a nonzero integer, and it is positive whenever no map entry
parses to a negative integer — but a negative entry is kept as-is. -/
theorem countMultiplier_characterization (cd : Option ParseOutcome) (t : String) :
    countMultiplier cd t ≠ 0
  ∧ (cd = none → countMultiplier cd t = 1)
  ∧ (cd = some .thrown → countMultiplier cd t = 1)
  ∧ (∀ m, cd = some (.obj m) → jsonLookup m t = none → countMultiplier cd t = 1)
  ∧ (∀ m v, cd = some (.obj m) → t ≠ "" → jsonLookup m t = some v → jtruthy v = true →
       countMultiplier cd t = orOne (jsParseInt (jvalToString v)))
  ∧ ((∀ m, cd = some (.obj m) →
        ∀ p ∈ m, ∀ n, jsParseInt (jvalToString p.2) = some n → 0 ≤ n) →
      0 < countMultiplier cd t) := by
  refine ⟨?_, ?_, ?_, ?_, ?_, ?_⟩
  · rcases countMultiplier_cases cd t with h | ⟨m, v, _, _, _, h⟩
    · rw [h]; decide
    · rw [h]; exact orOne_ne_zero _
  · intro h; subst h; rfl
  · intro h; subst h; rfl
  · intro m hm hl; subst hm
    unfold countMultiplier
    by_cases ht : t ≠ "" <;> simp [ht, hl]
  · intro m v hm ht hl hv; subst hm
    unfold countMultiplier
    simp [ht, hl, hv]
  · intro hnn
    rcases countMultiplier_cases cd t with h | ⟨m, v, hm, hl, _, h⟩
    · rw [h]; decide
    · rw [h]
      refine orOne_pos ?_
      intro n hn
      exact hnn m hm (t, v) (mem_of_jsonLookup_eq_some hl) n hn

/-- Witness for claim C1 (amended): with the map `{"Large": 2}` and title
`"Large"`, the characterization yields multiplier `2`. -/
theorem countMultiplier_characterization_witness :
    countMultiplier (some (.obj [("Large", .jnum 2)])) "Large" = 2 := by
  have h :=
    (countMultiplier_characterization (some (.obj [("Large", .jnum 2)])) "Large").2.2.2.2.1
      [("Large", .jnum 2)] (.jnum 2) rfl (by decide) (by decide) (by decide)
  rw [h]; decide

/-- Cart item produced for the `cart/add.js` request body.  The `id` field is
the result of `parseInt`, so `none` models `NaN`. -/
structure Item where
  id : Option Int
  quantity : Int
deriving DecidableEq, Repr

/-- Observable state of the submit control: its `disabled` flag and whether
the `loading` class is present. -/
structure ButtonState where
  disabled : Bool
  loading : Bool
deriving DecidableEq, Repr

/-- Disabling step at the start of a taken-over submission
(`submitButton.disabled = true; submitButton.classList.add("loading")`),
a no-op when the form has no submit control. -/
def disableButton : Option ButtonState → Option ButtonState
  | some _ => some ⟨true, true⟩
  | none => none

/-- Model of `enableSubmitButton`: clear the `disabled` flag and remove the
`loading` class, a no-op when the control is absent. -/
def enableSubmitButton : Option ButtonState → Option ButtonState
  | some _ => some ⟨false, false⟩
  | none => none

/-- Model of the item filter `!item.id || isNaN(item.id) || item.quantity <= 0`
used to validate the built items: an id of `NaN` or `0` is falsy/invalid, and
the quantity must be positive. -/
def itemIsInvalid (it : Item) : Bool :=
  (match it.id with
   | none => true
   | some n => n == 0)
  || it.quantity ≤ 0

/-- The hidden form fields the submit handler reads: the values of the
`section-id`, `id` (main variant) and `quantity` inputs (`none` when the input
is absent) and the initial state of the `[type="submit"]` control. -/
structure FormFields where
  sectionId : Option String
  variantIdValue : Option String
  quantityValue : Option String
  submitButton : Option ButtonState
deriving DecidableEq, Repr

/-- Outcome of the `fetch` of `cart/add.js` as far as the handler's control
flow can observe it: success, a non-ok HTTP status with a JSON body, a body
that fails to parse as JSON, or a network rejection. -/
inductive FetchResult where
  | ok
  | httpErr
  | jsonFail
  | netFail
deriving DecidableEq, Repr

/-- Observable effects of one run of `handleFormSubmit`: whether the default
submission was suppressed and propagation stopped, the final state of the
submit control, the items of the network request when one was made (with its
URL and `sections_url`), whether `handleAddToCartError` surfaced an error and
whether the success path ran. -/
structure SubmitResult where
  preventedDefault : Bool
  stoppedPropagation : Bool
  submitButton : Option ButtonState
  sentItems : Option (List Item)
  requestUrl : Option String
  sectionsUrl : Option String
  errorSurfaced : Bool
  addSuccessDispatched : Bool
deriving DecidableEq, Repr

/-- Result of the early `return` taken when no add-on checkbox is checked:
the default submission proceeds and nothing is touched. -/
def noTakeoverResult (form : FormFields) : SubmitResult :=
  { preventedDefault := false, stoppedPropagation := false,
    submitButton := form.submitButton, sentItems := none, requestUrl := none,
    sectionsUrl := none, errorSurfaced := false, addSuccessDispatched := false }

/-- Result of an aborted taken-over submission: no network call, the submit
control re-enabled, and `err` records whether `handleAddToCartError` ran. -/
def abortResult (btn : Option ButtonState) (err : Bool) : SubmitResult :=
  { preventedDefault := true, stoppedPropagation := true,
    submitButton := enableSubmitButton btn, sentItems := none, requestUrl := none,
    sectionsUrl := none, errorSurfaced := err, addSuccessDispatched := false }

/-- Result of a taken-over submission that reached the network call: the
`finally` step re-enables the submit control on every fetch outcome, the
success path dispatches the cart-refresh/add events, and every failure path
runs `handleAddToCartError`. -/
def sendResult (btn : Option ButtonState) (items : List Item) (url surl : String)
    (fr : FetchResult) : SubmitResult :=
  match fr with
  | .ok =>
    { preventedDefault := true, stoppedPropagation := true,
      submitButton := enableSubmitButton btn, sentItems := some items,
      requestUrl := some url, sectionsUrl := some surl,
      errorSurfaced := false, addSuccessDispatched := true }
  | _ =>
    { preventedDefault := true, stoppedPropagation := true,
      submitButton := enableSubmitButton btn, sentItems := some items,
      requestUrl := some url, sectionsUrl := some surl,
      errorSurfaced := true, addSuccessDispatched := false }

/-- Characters kept verbatim by `encodeURIComponent`. -/
def isUnreservedUri (c : Char) : Bool :=
  c.isAlphanum || c = '-' || c = '_' || c = '.' || c = '!' || c = '~'
    || c = '*' || c = Char.ofNat 39 || c = '(' || c = ')'

/-- UTF-8 bytes of a character. -/
def utf8Bytes (c : Char) : List Nat :=
  let n := c.toNat
  if n < 128 then [n]
  else if n < 2048 then [192 + n / 64, 128 + n % 64]
  else if n < 65536 then [224 + n / 4096, 128 + (n / 64) % 64, 128 + n % 64]
  else [240 + n / 262144, 128 + (n / 4096) % 64, 128 + (n / 64) % 64, 128 + n % 64]

/-- Uppercase hexadecimal digit. -/
def hexDigitChar (n : Nat) : Char :=
  if n < 10 then Char.ofNat (48 + n) else Char.ofNat (55 + n)

/-- Percent-encoding of one byte. -/
def percentEncodeByte (b : Nat) : String :=
  String.mk ['%', hexDigitChar (b / 16), hexDigitChar (b % 16)]

/-- Model of JavaScript `encodeURIComponent`. -/
def encodeURIComponent (s : String) : String :=
  s.data.foldl
    (fun acc c =>
      if isUnreservedUri c then acc.push c
      else acc ++ String.join ((utf8Bytes c).map percentEncodeByte))
    ""

/-- The `sections_url` put in the request body: built from the (truthy) value
of the `section-id` hidden input. -/
def sectionsUrlOf (sectionId : Option String) : String :=
  match sectionId with
  | some sid =>
    if sid ≠ "" then
      "/cart?section_id=cart-drawer&section_id=" ++ encodeURIComponent sid
    else "/cart?section_id=cart-drawer"
  | none => "/cart?section_id=cart-drawer"

/-- Model of JavaScript `s.endsWith(p)`: `p` is a suffix of `s`, checked on
the reversed character lists. -/
def strEndsWith (s p : String) : Bool :=
  p.data.reverse.isPrefixOf s.data.reverse

/-- Model of the JavaScript `||` chain over optional strings
(the empty string is falsy). -/
def strOr (a : Option String) (dflt : String) : String :=
  match a with
  | some s => if s = "" then dflt else s
  | none => dflt

/-- Resolution of the endpoint root:
`window.theme?.routes?.root || window.theme?.routes?.shop_url || "/"`. -/
def rootUrlOf (root shopUrl : Option String) : String :=
  strOr root (strOr shopUrl "/")

/-- Root normalization:
`rootUrl.endsWith("/") ? rootUrl : rootUrl + "/"`. -/
def normalizedRoot (rootUrl : String) : String :=
  if strEndsWith rootUrl "/" then rootUrl else rootUrl ++ "/"

/-- The cart-add request URL `normalizedRoot + "cart/add.js"`. -/
def addToCartUrl (rootUrl : String) : String :=
  normalizedRoot rootUrl ++ "cart/add.js"

/-- Model of `buildPatternProductItem`: the add-on's variant id must be a
present, non-empty, numeric data attribute; the quantity is the variant-keyed
multiplier.  Returns `none` (the source's `null`) when the id is missing or
parses to `NaN`. -/
def buildPatternProductItem (cb : Checkbox) : Option Item :=
  let patternQuantity := countMultiplier cb.countData cb.currentVariantTitle
  match cb.additionalProductVariantId with
  | some s =>
    if s ≠ "" then
      match jsParseInt s with
      | some vid => some { id := some vid, quantity := patternQuantity }
      | none => none
    else none
  | none => none

/-- One step of the needle loop in `handleFormSubmit`: a checked needle whose
item builds is pushed; a checked needle whose item fails to build is only
warned about and skipped. -/
def needleStep (acc : List Item) (cb : Checkbox) : List Item :=
  if cb.checked then
    match buildPatternProductItem cb with
    | some it => acc ++ [it]
    | none => acc
  else acc

/-- The needle items accumulated by `handleFormSubmit`, in DOM order. -/
def builtNeedleItems (ns : List Checkbox) : List Item :=
  ns.foldl needleStep []

/-- The pattern-product contribution to the item list: the built item when the
pattern-product checkbox exists, is checked and builds. -/
def patternProductItems (st : PatternFormState) : List Item :=
  match st.patternProductCheckbox with
  | some cb => if cb.checked then (buildPatternProductItem cb).toList else []
  | none => []

/-- The guard `hasPatternProduct || hasPatternNeedles` deciding whether the
handler takes the submission over. -/
def hasCheckedAddOn (st : PatternFormState) : Bool :=
  (match st.patternProductCheckbox with
   | some cb => cb.checked
   | none => false)
  || st.patternNeedleCheckboxes.any (fun cb => cb.checked)

/-- The main product quantity:
`quantityInput ? parseInt(quantityInput.value, 10) || 1 : 1`. -/
def mainQuantity (form : FormFields) : Int :=
  match form.quantityValue with
  | some q => orOne (jsParseInt q)
  | none => 1

/-- Tail of `handleFormSubmit` once the add-on items are collected: append the
main product item, reject an empty list, reject any invalid item, otherwise
perform the network call and the response handling. -/
def finishSubmit (btn : Option ButtonState) (sectionId : Option String)
    (rootCfg shopCfg : Option String) (fr : FetchResult)
    (variantId : Option Int) (quantity : Int) (addOnItems : List Item) : SubmitResult :=
  let items := addOnItems ++ [{ id := variantId, quantity := quantity }]
  if items.isEmpty then abortResult btn false
  else if !(items.filter itemIsInvalid).isEmpty then abortResult btn false
  else sendResult btn items (addToCartUrl (rootUrlOf rootCfg shopCfg))
         (sectionsUrlOf sectionId) fr

/-- Model of `handleFormSubmit`: the full intercepted-submission flow, from
the add-on guard through item building, validation, the network call and the
`finally` re-enabling of the submit control. -/
def handleFormSubmit (st : PatternFormState) (form : FormFields)
    (rootCfg shopCfg : Option String) (fr : FetchResult) : SubmitResult :=
  if !(hasCheckedAddOn st) then noTakeoverResult form
  else
    let btn := disableButton form.submitButton
    match form.variantIdValue with
    | none => abortResult btn false
    | some vidStr =>
      let variantId := jsParseInt vidStr
      let quantity := mainQuantity form
      let needleItems := builtNeedleItems st.patternNeedleCheckboxes
      match st.patternProductCheckbox with
      | some pp =>
        if pp.checked then
          match buildPatternProductItem pp with
          | some it =>
            finishSubmit btn form.sectionId rootCfg shopCfg fr variantId quantity
              (needleItems ++ [it])
          | none => abortResult btn true
        else
          finishSubmit btn form.sectionId rootCfg shopCfg fr variantId quantity needleItems
      | none =>
        finishSubmit btn form.sectionId rootCfg shopCfg fr variantId quantity needleItems

example :
    (handleFormSubmit
      ⟨none, [⟨true, 0, none, "", some "11", none, none, none⟩,
              ⟨true, 0, none, "", some "22", none, none, none⟩], 0⟩
      ⟨none, some "99", none, some ⟨false, false⟩⟩ none none .ok).sentItems
    = some [⟨some 11, 1⟩, ⟨some 22, 1⟩, ⟨some 99, 1⟩] := by decide

example :
    (handleFormSubmit ⟨none, [], 0⟩ ⟨none, some "99", none, some ⟨false, false⟩⟩
      none none .ok)
    = noTakeoverResult ⟨none, some "99", none, some ⟨false, false⟩⟩ := by decide

theorem needle_foldl_eq (ns : List Checkbox) (acc : List Item) :
    ns.foldl needleStep acc
      = acc ++ (ns.filter (fun cb => cb.checked)).filterMap buildPatternProductItem := by
  induction ns generalizing acc with
  | nil => simp
  | cons cb t ih =>
    cases hc : cb.checked with
    | false => simp [needleStep, hc, ih]
    | true =>
      cases hb : buildPatternProductItem cb with
      | none => simp [needleStep, hc, hb, ih]
      | some it => simp [needleStep, hc, hb, ih]

theorem builtNeedleItems_eq (ns : List Checkbox) :
    builtNeedleItems ns
      = (ns.filter (fun cb => cb.checked)).filterMap buildPatternProductItem := by
  simpa using needle_foldl_eq ns []

theorem finishSubmit_sent {btn : Option ButtonState} {sectionId : Option String}
    {rootCfg shopCfg : Option String} {fr : FetchResult} {variantId : Option Int}
    {quantity : Int} {addOnItems items : List Item}
    (h : (finishSubmit btn sectionId rootCfg shopCfg fr variantId quantity
            addOnItems).sentItems = some items) :
    items = addOnItems ++ [{ id := variantId, quantity := quantity }]
      ∧ items.filter itemIsInvalid = [] := by
  simp only [finishSubmit] at h
  split at h
  · exact absurd h (by simp [abortResult])
  · split at h
    · exact absurd h (by simp [abortResult])
    · rename_i hval
      have hfil : (addOnItems ++ [(⟨variantId, quantity⟩ : Item)]).filter
          itemIsInvalid = [] := by
        simpa using hval
      cases fr <;> simp only [sendResult] at h <;>
        exact ⟨(Option.some.inj h).symm, by rw [(Option.some.inj h).symm]; exact hfil⟩

theorem handleFormSubmit_sent {st : PatternFormState} {form : FormFields}
    {rootCfg shopCfg : Option String} {fr : FetchResult} {items : List Item}
    (h : (handleFormSubmit st form rootCfg shopCfg fr).sentItems = some items) :
    ∃ v, form.variantIdValue = some v
      ∧ items = builtNeedleItems st.patternNeedleCheckboxes ++ patternProductItems st
                ++ [{ id := jsParseInt v, quantity := mainQuantity form }]
      ∧ items.filter itemIsInvalid = [] := by
  simp only [handleFormSubmit] at h
  split at h
  · exact absurd h (by simp [noTakeoverResult])
  · split at h
    · exact absurd h (by simp [abortResult])
    · rename_i vidStr hvid
      split at h
      · rename_i pp hpp
        split at h
        · rename_i hchecked
          split at h
          · rename_i it hbuild
            obtain ⟨hi, hf⟩ := finishSubmit_sent h
            refine ⟨vidStr, hvid, ?_, hf⟩
            rw [hi]
            simp [patternProductItems, hpp, hchecked, hbuild]
          · exact absurd h (by simp [abortResult])
        · rename_i hchecked
          obtain ⟨hi, hf⟩ := finishSubmit_sent h
          refine ⟨vidStr, hvid, ?_, hf⟩
          rw [hi]
          simp [patternProductItems, hpp, hchecked]
      · rename_i hpp
        obtain ⟨hi, hf⟩ := finishSubmit_sent h
        refine ⟨vidStr, hvid, ?_, hf⟩
        rw [hi]
        simp [patternProductItems, hpp]

/-- Claim C3: whenever an intercepted submission performs the network call,
the sent items are exactly the successfully built items of the checked
pattern-needle checkboxes in DOM order, followed by the pattern-product item
when that checkbox is checked, followed by the main product variant as the
last element.  The list is a function of the current checked state alone, so
it cannot depend on the order in which checkboxes were toggled. -/
theorem sentItems_ordered (st : PatternFormState) (form : FormFields)
    (rootCfg shopCfg : Option String) (fr : FetchResult) (items : List Item)
    (h : (handleFormSubmit st form rootCfg shopCfg fr).sentItems = some items) :
    ∃ v, form.variantIdValue = some v
      ∧ items = (st.patternNeedleCheckboxes.filter (fun cb => cb.checked)).filterMap
                  buildPatternProductItem
                ++ patternProductItems st
                ++ [{ id := jsParseInt v, quantity := mainQuantity form }] := by
  obtain ⟨v, hv, hi, _⟩ := handleFormSubmit_sent h
  refine ⟨v, hv, ?_⟩
  rw [hi, builtNeedleItems_eq]

/-- Witness for claim C3: two checked needles (variant ids 11 and 22), no
pattern product, main variant 99 — the sent list is
`[{id 11, qty 1}, {id 22, qty 1}, {id 99, qty 1}]` in that order. -/
theorem sentItems_ordered_witness :
    ∃ v, (some "99" : Option String) = some v
      ∧ [(⟨some 11, 1⟩ : Item), ⟨some 22, 1⟩, ⟨some 99, 1⟩]
        = (([⟨true, 0, none, "", some "11", none, none, none⟩,
             ⟨true, 0, none, "", some "22", none, none, none⟩] :
              List Checkbox).filter (fun cb => cb.checked)).filterMap
            buildPatternProductItem
          ++ patternProductItems
              ⟨none, [⟨true, 0, none, "", some "11", none, none, none⟩,
                      ⟨true, 0, none, "", some "22", none, none, none⟩], 0⟩
          ++ [{ id := jsParseInt v,
                quantity := mainQuantity ⟨none, some "99", none, some ⟨false, false⟩⟩ }] := by
  simpa using
    sentItems_ordered
      ⟨none, [⟨true, 0, none, "", some "11", none, none, none⟩,
              ⟨true, 0, none, "", some "22", none, none, none⟩], 0⟩
      ⟨none, some "99", none, some ⟨false, false⟩⟩ none none .ok
      [⟨some 11, 1⟩, ⟨some 22, 1⟩, ⟨some 99, 1⟩] (by decide)

theorem finishSubmit_shape (btn : Option ButtonState) (sectionId : Option String)
    (rootCfg shopCfg : Option String) (fr : FetchResult) (variantId : Option Int)
    (quantity : Int) (addOnItems : List Item) :
    (∃ e, finishSubmit btn sectionId rootCfg shopCfg fr variantId quantity addOnItems
            = abortResult btn e)
  ∨ (∃ its, finishSubmit btn sectionId rootCfg shopCfg fr variantId quantity addOnItems
            = sendResult btn its (addToCartUrl (rootUrlOf rootCfg shopCfg))
                (sectionsUrlOf sectionId) fr) := by
  simp only [finishSubmit]
  split
  · exact Or.inl ⟨false, rfl⟩
  · split
    · exact Or.inl ⟨false, rfl⟩
    · exact Or.inr ⟨_, rfl⟩

theorem handleFormSubmit_takeover (st : PatternFormState) (form : FormFields)
    (rootCfg shopCfg : Option String) (fr : FetchResult)
    (hg : hasCheckedAddOn st = true) :
    (∃ e, handleFormSubmit st form rootCfg shopCfg fr
            = abortResult (disableButton form.submitButton) e)
  ∨ (∃ its, handleFormSubmit st form rootCfg shopCfg fr
            = sendResult (disableButton form.submitButton) its
                (addToCartUrl (rootUrlOf rootCfg shopCfg))
                (sectionsUrlOf form.sectionId) fr) := by
  simp only [handleFormSubmit, hg, Bool.not_true, Bool.false_eq_true, if_false]
  split
  · exact Or.inl ⟨false, rfl⟩
  · split
    · split
      · split
        · exact finishSubmit_shape _ _ _ _ _ _ _ _
        · exact Or.inl ⟨true, rfl⟩
      · exact finishSubmit_shape _ _ _ _ _ _ _ _
    · exact finishSubmit_shape _ _ _ _ _ _ _ _

/-- Claim C5: the submit handler prevents the default submission and stops
propagation exactly when at least one add-on checkbox (pattern product or
pattern needle) is checked, and when none is checked it returns with no
effect at all: the submit control keeps its initial state, no network call is
made, no error is surfaced and no success event is dispatched. -/
theorem takeover_iff_addon_checked (st : PatternFormState) (form : FormFields)
    (rootCfg shopCfg : Option String) (fr : FetchResult) :
    ((handleFormSubmit st form rootCfg shopCfg fr).preventedDefault
       = hasCheckedAddOn st)
  ∧ ((handleFormSubmit st form rootCfg shopCfg fr).stoppedPropagation
       = hasCheckedAddOn st)
  ∧ (hasCheckedAddOn st = false →
       handleFormSubmit st form rootCfg shopCfg fr = noTakeoverResult form) := by
  cases hg : hasCheckedAddOn st with
  | false =>
    have hres : handleFormSubmit st form rootCfg shopCfg fr = noTakeoverResult form := by
      simp [handleFormSubmit, hg]
    rw [hres]
    exact ⟨rfl, rfl, fun _ => rfl⟩
  | true =>
    rcases handleFormSubmit_takeover st form rootCfg shopCfg fr hg with
      ⟨e, he⟩ | ⟨its, he⟩
    · rw [he]
      exact ⟨rfl, rfl, by simp⟩
    · rw [he]
      cases fr <;> exact ⟨rfl, rfl, by simp⟩

/-- Witness for claim C5: with no add-on checked, the handler leaves the
submission untouched. -/
theorem takeover_iff_addon_checked_witness :
    handleFormSubmit ⟨none, [⟨false, 0, none, "", some "11", none, none, none⟩], 0⟩
        ⟨none, some "99", none, some ⟨false, false⟩⟩ none none .ok
      = noTakeoverResult ⟨none, some "99", none, some ⟨false, false⟩⟩ :=
  (takeover_iff_addon_checked
      ⟨none, [⟨false, 0, none, "", some "11", none, none, none⟩], 0⟩
      ⟨none, some "99", none, some ⟨false, false⟩⟩ none none .ok).2.2 (by decide)

/-- Claim C7: on every path through an intercepted submission — missing main
variant-id input, pattern-product build failure, invalid built item, network
or HTTP failure, and success — the submit control ends re-enabled: `disabled`
cleared and the `loading` class removed. -/
theorem submit_button_reenabled (st : PatternFormState) (form : FormFields)
    (rootCfg shopCfg : Option String) (fr : FetchResult) (b0 : ButtonState)
    (hb : form.submitButton = some b0) (hg : hasCheckedAddOn st = true) :
    (handleFormSubmit st form rootCfg shopCfg fr).submitButton
      = some { disabled := false, loading := false } := by
  rcases handleFormSubmit_takeover st form rootCfg shopCfg fr hg with
    ⟨e, he⟩ | ⟨its, he⟩
  · rw [he]
    simp [abortResult, enableSubmitButton, disableButton, hb]
  · rw [he]
    cases fr <;> simp [sendResult, enableSubmitButton, disableButton, hb]

/-- Witness for claim C7: a submission that aborts on a missing main
variant-id input still re-enables the (initially enabled, then disabled)
submit control. -/
theorem submit_button_reenabled_witness :
    (handleFormSubmit ⟨none, [⟨true, 0, none, "", some "11", none, none, none⟩], 0⟩
        ⟨none, none, none, some ⟨false, false⟩⟩ none none .netFail).submitButton
      = some { disabled := false, loading := false } :=
  submit_button_reenabled
    ⟨none, [⟨true, 0, none, "", some "11", none, none, none⟩], 0⟩
    ⟨none, none, none, some ⟨false, false⟩⟩ none none .netFail
    ⟨false, false⟩ rfl (by decide)

/-- Claim C4 counterexample: one checked pattern needle whose variant-id data
attribute is missing, no pattern-product checkbox, main variant id 99.  The
claim says the whole submission must abort before any network call with an
error surfaced; instead the handler skips the needle with only a console
warning and posts the partial item list `[{id 99, qty 1}]` with no error. -/
theorem needle_without_variant_id_sends_partial :
    (Checkbox.checked ⟨true, 0, none, "", none, none, none, none⟩ = true)
  ∧ (Checkbox.additionalProductVariantId ⟨true, 0, none, "", none, none, none, none⟩
       = none)
  ∧ ((handleFormSubmit
        ⟨none, [⟨true, 0, none, "", none, none, none, none⟩], 0⟩
        ⟨none, some "99", none, some ⟨false, false⟩⟩ none none .ok).sentItems
      = some [{ id := some 99, quantity := 1 }])
  ∧ ((handleFormSubmit
        ⟨none, [⟨true, 0, none, "", none, none, none, none⟩], 0⟩
        ⟨none, some "99", none, some ⟨false, false⟩⟩ none none .ok).errorSurfaced
      = false) := by
  refine ⟨rfl, rfl, ?_, ?_⟩ <;> decide

/-- Claim C4 as amended: only the checked pattern-product checkbox's missing
or non-numeric variant id aborts the whole submission before any network call
(surfacing an error and re-enabling the submit control, which is what
`abortResult _ true` records); a checked pattern-needle checkbox whose item
fails to build is skipped with a warning and has no effect whatsoever on the
outcome of the submission. -/
theorem submit_abort_and_skip_behavior :
    (∀ (st : PatternFormState) (form : FormFields) (rootCfg shopCfg : Option String)
       (fr : FetchResult) (pp : Checkbox) (v : String),
       st.patternProductCheckbox = some pp → pp.checked = true →
       buildPatternProductItem pp = none → form.variantIdValue = some v →
       handleFormSubmit st form rootCfg shopCfg fr
         = abortResult (disableButton form.submitButton) true)
  ∧ (∀ (st : PatternFormState) (form : FormFields) (rootCfg shopCfg : Option String)
       (fr : FetchResult) (pre post : List Checkbox) (cb : Checkbox),
       st.patternNeedleCheckboxes = pre ++ cb :: post → cb.checked = true →
       buildPatternProductItem cb = none →
       hasCheckedAddOn { st with patternNeedleCheckboxes := pre ++ post } = true →
       handleFormSubmit { st with patternNeedleCheckboxes := pre ++ post }
           form rootCfg shopCfg fr
         = handleFormSubmit st form rootCfg shopCfg fr) := by
  constructor
  · intro st form rootCfg shopCfg fr pp v hpp hchecked hbuild hvid
    have hg : hasCheckedAddOn st = true := by
      simp [hasCheckedAddOn, hpp, hchecked]
    simp [handleFormSubmit, hg, hvid, hpp, hchecked, hbuild]
  · intro st form rootCfg shopCfg fr pre post cb hn hc hb hg
    have hg2 : hasCheckedAddOn st = true := by
      simp [hasCheckedAddOn, hn, hc]
    have hneed : builtNeedleItems (pre ++ post) = builtNeedleItems (pre ++ cb :: post) := by
      rw [builtNeedleItems_eq, builtNeedleItems_eq]
      simp [List.filter_append, List.filter_cons, hc, hb]
    simp only [handleFormSubmit, hg, hg2, Bool.not_true, Bool.false_eq_true, if_false]
    rw [hn, ← hneed]

/-- Witness for claim C4 (amended): a checked pattern product whose variant-id
attribute is absent aborts the submission with an error and a re-enabled
submit control. -/
theorem submit_abort_and_skip_behavior_witness :
    handleFormSubmit
        ⟨some ⟨true, 0, none, "", none, some "77", none, none⟩, [], 0⟩
        ⟨none, some "99", none, some ⟨false, false⟩⟩ none none .ok
      = abortResult (disableButton (some ⟨false, false⟩)) true := by
  have h := submit_abort_and_skip_behavior.1
    ⟨some ⟨true, 0, none, "", none, some "77", none, none⟩, [], 0⟩
    ⟨none, some "99", none, some ⟨false, false⟩⟩ none none .ok
    ⟨true, 0, none, "", none, some "77", none, none⟩ "99" rfl rfl (by decide) rfl
  simpa using h

/-- Claim C8: whenever an intercepted submission reaches the network call, the
sent list is non-empty with the main-product item last; that item's quantity
is positive, equal to the integer parsed from the `quantity` form field when
that parses to a nonzero integer, and defaulted to 1 when the field is absent
or its value parses to `NaN` or `0`. -/
theorem main_item_quantity_spec (st : PatternFormState) (form : FormFields)
    (rootCfg shopCfg : Option String) (fr : FetchResult) (items : List Item)
    (h : (handleFormSubmit st form rootCfg shopCfg fr).sentItems = some items) :
    items ≠ []
  ∧ (∃ v, form.variantIdValue = some v
       ∧ items.getLast? = some { id := jsParseInt v, quantity := mainQuantity form })
  ∧ 0 < mainQuantity form
  ∧ (form.quantityValue = none → mainQuantity form = 1)
  ∧ (∀ q, form.quantityValue = some q → jsParseInt q = none ∨ jsParseInt q = some 0 →
       mainQuantity form = 1)
  ∧ (∀ q n, form.quantityValue = some q → jsParseInt q = some n → n ≠ 0 →
       mainQuantity form = n) := by
  obtain ⟨v, hv, hi, hf⟩ := handleFormSubmit_sent h
  refine ⟨?_, ⟨v, hv, ?_⟩, ?_, ?_, ?_, ?_⟩
  · rw [hi]; simp
  · rw [hi, List.getLast?_concat]
  · have hmem : ({ id := jsParseInt v, quantity := mainQuantity form } : Item) ∈ items := by
      rw [hi]; simp
    have hninv := List.filter_eq_nil_iff.mp hf _ hmem
    simp only [itemIsInvalid, Bool.or_eq_true, not_or, decide_eq_true_eq] at hninv
    omega
  · intro hq; simp [mainQuantity, hq]
  · intro q hq hpq
    rcases hpq with hpq | hpq <;> simp [mainQuantity, hq, hpq, orOne]
  · intro q n hq hpn hn0
    simp [mainQuantity, hq, hpn, orOne, hn0]

/-- Witness for claim C8: with quantity field "3", the sent list ends with the
main item of quantity 3 and is non-empty. -/
theorem main_item_quantity_spec_witness :
    ([(⟨some 11, 1⟩ : Item), ⟨some 99, 3⟩] ≠ [])
  ∧ (∃ v, (some "99" : Option String) = some v
       ∧ ([(⟨some 11, 1⟩ : Item), ⟨some 99, 3⟩]).getLast?
         = some { id := jsParseInt v,
                  quantity := mainQuantity ⟨none, some "99", some "3", some ⟨false, false⟩⟩ })
  ∧ 0 < mainQuantity ⟨none, some "99", some "3", some ⟨false, false⟩⟩
  ∧ ((⟨none, some "99", some "3", some ⟨false, false⟩⟩ : FormFields).quantityValue = none →
       mainQuantity ⟨none, some "99", some "3", some ⟨false, false⟩⟩ = 1)
  ∧ (∀ q, (⟨none, some "99", some "3", some ⟨false, false⟩⟩ : FormFields).quantityValue
         = some q →
       jsParseInt q = none ∨ jsParseInt q = some 0 →
       mainQuantity ⟨none, some "99", some "3", some ⟨false, false⟩⟩ = 1)
  ∧ (∀ q n, (⟨none, some "99", some "3", some ⟨false, false⟩⟩ : FormFields).quantityValue
         = some q →
       jsParseInt q = some n → n ≠ 0 →
       mainQuantity ⟨none, some "99", some "3", some ⟨false, false⟩⟩ = n) :=
  main_item_quantity_spec
    ⟨none, [⟨true, 0, none, "", some "11", none, none, none⟩], 0⟩
    ⟨none, some "99", some "3", some ⟨false, false⟩⟩ none none .ok
    [⟨some 11, 1⟩, ⟨some 99, 3⟩] (by decide)

/-- Truthiness of an optional data-attribute string: absent and empty are
falsy. -/
def strTruthy : Option String → Bool
  | none => false
  | some s => s != ""

/-- Model of `updateFormData`: given whether the enclosing form was found, the
current value of the hidden `pattern_product_id` input (`none` when absent),
and the `isChecked` / `additionalProductId` arguments of the call, return the
new value of the hidden input.  When the form is missing nothing changes;
when the event checkbox is checked and carries a non-empty id the input is
created if needed and set to that id; otherwise an existing input is
removed. -/
def updateFormData (formFound : Bool) (existingField : Option String)
    (isChecked : Bool) (additionalProductId : Option String) : Option String :=
  if !formFound then existingField
  else if isChecked && strTruthy additionalProductId then additionalProductId
  else
    match existingField with
    | some _ => none
    | none => none

/-- The hidden-field synchronization step of `handlePatternProductChange`,
which runs for pattern-product and pattern-needle change events alike and
passes the event target's own checked state and product id to
`updateFormData`. -/
def handlePatternChangeFieldSync (formFound : Bool) (existingField : Option String)
    (target : Checkbox) : Option String :=
  updateFormData formFound existingField target.checked target.additionalProductId

/-- Claim C6 counterexample: the controller state has the pattern-product
checkbox checked with product id "7" and the hidden field currently "7"; a
change event fired by a pattern-needle checkbox also runs
`handlePatternProductChange`, so an unchecked needle removes the field (first
conjunct below) and a checked needle with product id "42" overwrites the
field with the needle's id (second conjunct) — in both cases the field no
longer reflects the checked pattern-product's id "7", refuting the claim. -/
theorem pattern_field_follows_event_target_cex :
    (PatternFormState.patternProductCheckbox
        ⟨some ⟨true, 0, none, "", none, some "7", none, none⟩,
         [⟨false, 0, none, "", none, some "42", none, none⟩], 0⟩
      = some ⟨true, 0, none, "", none, some "7", none, none⟩)
  ∧ handlePatternChangeFieldSync true (some "7")
      ⟨false, 0, none, "", none, some "42", none, none⟩ = none
  ∧ handlePatternChangeFieldSync true (some "7")
      ⟨true, 0, none, "", none, some "42", none, none⟩ = some "42" := by
  refine ⟨rfl, ?_, ?_⟩ <;> decide

/-- Claim C6 as amended: after each add-on checkbox change event (pattern
product or needle alike) the hidden `pattern_product_id` field is determined
by the event target alone — set to the target's `additionalProductId` when
the target is checked and that id is a non-empty attribute, and absent
otherwise — independently of the field's previous value. -/
theorem pattern_field_determined_by_target (f1 f2 : Option String) (cb : Checkbox) :
    (handlePatternChangeFieldSync true f1 cb = handlePatternChangeFieldSync true f2 cb)
  ∧ (cb.checked = true → strTruthy cb.additionalProductId = true →
       handlePatternChangeFieldSync true f1 cb = cb.additionalProductId)
  ∧ (cb.checked = false → handlePatternChangeFieldSync true f1 cb = none)
  ∧ (strTruthy cb.additionalProductId = false →
       handlePatternChangeFieldSync true f1 cb = none) := by
  refine ⟨?_, ?_, ?_, ?_⟩
  · by_cases h : cb.checked && strTruthy cb.additionalProductId
    · simp [handlePatternChangeFieldSync, updateFormData, h]
    · simp only [handlePatternChangeFieldSync, updateFormData, h, Bool.not_true,
        Bool.false_eq_true, if_false]
      cases f1 <;> cases f2 <;> rfl
  · intro hc hid
    simp [handlePatternChangeFieldSync, updateFormData, hc, hid]
  · intro hc
    simp only [handlePatternChangeFieldSync, updateFormData, hc]
    cases f1 <;> rfl
  · intro hid
    simp only [handlePatternChangeFieldSync, updateFormData, hid, Bool.and_false]
    cases f1 <;> rfl

/-- Witness for claim C6 (amended): a checked target with id "42" sets the
field to "42" regardless of the previous field value "7". -/
theorem pattern_field_determined_by_target_witness :
    handlePatternChangeFieldSync true (some "7")
        ⟨true, 0, none, "", none, some "42", none, none⟩
      = Checkbox.additionalProductId ⟨true, 0, none, "", none, some "42", none, none⟩ :=
  (pattern_field_determined_by_target (some "7") none
      ⟨true, 0, none, "", none, some "42", none, none⟩).2.1 rfl (by decide)

/-- In-place update of the element at one index of a list, modelling the
mutation of the DOM element a lookup returned. -/
def listModify {α : Type} (l : List α) (i : Nat) (f : α → α) : List α :=
  match l, i with
  | [], _ => []
  | x :: t, 0 => f x :: t
  | x :: t, n + 1 => x :: listModify t n f

theorem listModify_getElem? {α : Type} (l : List α) (i : Nat) (f : α → α) :
    (listModify l i f)[i]? = (l[i]?).map f := by
  induction l generalizing i with
  | nil => simp [listModify]
  | cons x t ih =>
    cases i with
    | zero => simp [listModify]
    | succ n => simp [listModify, ih]

/-- Model of the fallback query `this.querySelector("#name, [name=name]")`:
the first checkbox in DOM order whose `id` or `name` attribute is the given
name, returned as its index so that a later mutation is visible to a later
read. -/
def domQuery (doms : List Checkbox) (name : String) : Option Nat :=
  doms.findIdx? (fun cb => cb.idAttr == some name || cb.nameAttr == some name)

/-- The shared lookup `this.checkboxes.get(name) || this.querySelector(...)`
of `getCheckboxState` and `setCheckboxState`: the controller's checkbox map
(name to element, here an index into the DOM list) first, the DOM query as
fallback. -/
def lookupCheckboxIdx (doms : List Checkbox) (entries : List (String × Nat))
    (name : String) : Option Nat :=
  match entries.lookup name with
  | some i => some i
  | none => domQuery doms name

/-- Model of `getCheckboxState`: the checked flag of the found checkbox, or
`null` (`none`) when no checkbox with that name or id exists. -/
def getCheckboxState (doms : List Checkbox) (entries : List (String × Nat))
    (name : String) : Option Bool :=
  match lookupCheckboxIdx doms entries name with
  | some i => (doms[i]?).map (fun cb => cb.checked)
  | none => none

/-- Model of `setCheckboxState`: set the checked flag of the found checkbox
(and dispatch its change event, whose handlers do not touch the flag); leave
everything unchanged when no checkbox is found. -/
def setCheckboxState (doms : List Checkbox) (entries : List (String × Nat))
    (name : String) (checked : Bool) : List Checkbox :=
  match lookupCheckboxIdx doms entries name with
  | some i => listModify doms i (fun cb => { cb with checked := checked })
  | none => doms

/-- Claim C9: for every name bound in the controller's checkbox map (to a
checkbox that exists), `setCheckboxState name b` followed by
`getCheckboxState name` returns `b`; and when no checkbox with the name or id
exists at all, `getCheckboxState` returns `null` and `setCheckboxState`
changes nothing. -/
theorem checkbox_state_roundtrip :
    (∀ (doms : List Checkbox) (entries : List (String × Nat)) (name : String)
       (b : Bool) (i : Nat),
       entries.lookup name = some i → i < doms.length →
       getCheckboxState (setCheckboxState doms entries name b) entries name = some b)
  ∧ (∀ (doms : List Checkbox) (entries : List (String × Nat)) (name : String) (b : Bool),
       lookupCheckboxIdx doms entries name = none →
       getCheckboxState doms entries name = none
         ∧ setCheckboxState doms entries name b = doms) := by
  constructor
  · intro doms entries name b i hl hlen
    have hidx : lookupCheckboxIdx doms entries name = some i := by
      simp [lookupCheckboxIdx, hl]
    have hidx2 : lookupCheckboxIdx
        (listModify doms i (fun cb => { cb with checked := b })) entries name = some i := by
      simp [lookupCheckboxIdx, hl]
    have hget := List.getElem?_eq_getElem hlen
    simp [setCheckboxState, getCheckboxState, hidx, hidx2, listModify_getElem?, hget]
  · intro doms entries name b hnone
    exact ⟨by simp [getCheckboxState, hnone], by simp [setCheckboxState, hnone]⟩

/-- Witness for claim C9: a one-checkbox map bound at name
`pattern_product` round-trips `true`. -/
theorem checkbox_state_roundtrip_witness :
    getCheckboxState
        (setCheckboxState [⟨false, 0, none, "", none, none, some "pattern_product", none⟩]
          [("pattern_product", 0)] "pattern_product" true)
        [("pattern_product", 0)] "pattern_product"
      = some true :=
  checkbox_state_roundtrip.1
    [⟨false, 0, none, "", none, none, some "pattern_product", none⟩]
    [("pattern_product", 0)] "pattern_product" true 0 (by decide) (by decide)

theorem strEndsWith_append_slash (r : String) : strEndsWith (r ++ "/") "/" = true := by
  simp [strEndsWith, String.data_append, List.reverse_append, List.isPrefixOf]

theorem strEndsWith_append_slash_double (r : String) :
    strEndsWith (r ++ "/") "//" = strEndsWith r "/" := by
  simp [strEndsWith, String.data_append, List.reverse_append, List.isPrefixOf]

/-- Claim C10: the cart-add request URL is the configured root, given a
trailing slash when it lacks one, followed by `cart/add.js`; the normalized
root always ends in a slash; normalization is idempotent; the appended slash
never creates a double slash at the junction with the path; and the default
root resolution yields `/`, for which the URL is `/cart/add.js`. -/
theorem addToCartUrl_normalization (r : String) :
    (addToCartUrl r = normalizedRoot r ++ "cart/add.js")
  ∧ (strEndsWith r "/" = true → normalizedRoot r = r)
  ∧ (strEndsWith r "/" = false → normalizedRoot r = r ++ "/")
  ∧ (strEndsWith (normalizedRoot r) "/" = true)
  ∧ (normalizedRoot (normalizedRoot r) = normalizedRoot r)
  ∧ (strEndsWith r "/" = false → strEndsWith (normalizedRoot r) "//" = false)
  ∧ (rootUrlOf none none = "/")
  ∧ (addToCartUrl "/" = "/cart/add.js") := by
  refine ⟨rfl, ?_, ?_, ?_, ?_, ?_, rfl, by decide⟩
  · intro h; simp [normalizedRoot, h]
  · intro h; simp [normalizedRoot, h]
  · by_cases h : strEndsWith r "/" = true
    · simp [normalizedRoot, h]
    · simp [normalizedRoot, h, strEndsWith_append_slash]
  · by_cases h : strEndsWith r "/" = true
    · simp [normalizedRoot, h]
    · simp [normalizedRoot, h, strEndsWith_append_slash]
  · intro h
    simp [normalizedRoot, h, strEndsWith_append_slash_double]

/-- Witness for claim C10: a root without trailing slash gets exactly one
appended. -/
theorem addToCartUrl_normalization_witness :
    normalizedRoot "https://shop.example" = "https://shop.example" ++ "/" :=
  (addToCartUrl_normalization "https://shop.example").2.2.1 (by decide)

end Frra
